import Mathlib

/-!
Shallow embedding of the rag-api-workers repository: a Cloudflare-Workers
RAG service (Hono HTTP app in `src/index.js`, ingestion workflow in
`src/vectorize.js`, vector search agent in `src/agents/vector-agent.js`
with `src/agents/base-agent.js`).

Scores are modelled as rationals, ids and texts as strings.  External
collaborators (the embedding model, the Vectorize index, the D1 record
store, the generation model) are modelled by explicit inputs: the list of
matches a Vectorize query returned, the list of rows in the `notes` table
(in storage order, which is the order a SQL query without ORDER BY
returns), and outcome flags for calls that can fail.
-/

namespace RagApi

/-- Constant `SIMILARITY_THRESHOLD = 0.5` from `src/index.js`. -/
def SIMILARITY_THRESHOLD : ℚ := 1/2

/-- Constant `DEFAULT_MODEL` from `src/index.js`. -/
def DEFAULT_MODEL : String := "@cf/meta/llama-3.2-1b-instruct"

/-- Constant `ADVANCED_MODEL` from `src/index.js`. -/
def ADVANCED_MODEL : String := "@cf/meta/llama-3.1-70b-instruct"

/-- A match returned by a Vectorize `query` call: `{id, score, metadata}`. -/
structure VMatch where
  id : String
  score : ℚ
  metadata : List (String × String)
deriving Repr, DecidableEq

/-- A result object built by `VectorAgent.search` in
`src/agents/vector-agent.js`: the spread of a match plus `source` and
`agent` fields; `normalizedScore` is `none` until (and unless)
`BaseAgent.normalizeScores` adds it. -/
structure AgentResult where
  id : String
  score : ℚ
  metadata : List (String × String)
  source : String
  agent : String
  normalizedScore : Option ℚ
deriving Repr, DecidableEq

/-- The filter-and-format step of `VectorAgent.search`:
`searchResults.matches.filter(m => m.score >= threshold).map(m => ({...}))`. -/
def filterFormat (agentName : String) (ms : List VMatch) (threshold : ℚ) :
    List AgentResult :=
  (ms.filter (fun m => threshold ≤ m.score)).map (fun m =>
    { id := m.id, score := m.score, metadata := m.metadata,
      source := "vector", agent := agentName, normalizedScore := none })

/-- The value `Math.max(...results.map(r => r.score || 0))` over a non-empty result
list (the empty case is handled before this is evaluated). -/
def maxScore : List AgentResult → ℚ
  | [] => 0
  | r :: rs => (rs.map (·.score)).foldl max r.score

/-- Function `BaseAgent.normalizeScores` from `src/agents/base-agent.js`: empty
input yields `[]`; if the maximum score is 0 the results are returned
unchanged; otherwise every result is spread with
`normalizedScore = score / maxScore`. -/
def normalizeScores (results : List AgentResult) : List AgentResult :=
  if results = [] then []
  else if maxScore results = 0 then results
  else results.map (fun r =>
    { r with normalizedScore := some (r.score / maxScore results) })

/-- Method `VectorAgent.search` after the Vectorize query returned `ms`:
threshold filter, formatting, then score normalization. -/
def VectorAgent.search (ms : List VMatch) (threshold : ℚ) : List AgentResult :=
  normalizeScores (filterFormat ("VectorAgent") ms threshold)

/-- The `matchingIds` extraction of the `GET /` endpoint in `src/index.js`:
`vectorQuery.matches.filter(m => m.score > SIMILARITY_THRESHOLD).map(m => m.id)`. -/
def queryFilteredMatches (ms : List VMatch) : List VMatch :=
  ms.filter (fun m => SIMILARITY_THRESHOLD < m.score)

/-- The matched note ids the `GET /` endpoint feeds to the record store. -/
def matchingIds (ms : List VMatch) : List String :=
  (queryFilteredMatches ms).map (·.id)

lemma le_foldl_max (a : ℚ) (l : List ℚ) : a ≤ l.foldl max a := by
  induction l generalizing a with
  | nil => exact le_refl a
  | cons x xs ih => exact le_trans (le_max_left a x) (ih (max a x))

lemma mem_le_foldl_max (a : ℚ) (l : List ℚ) : ∀ x ∈ l, x ≤ l.foldl max a := by
  induction l generalizing a with
  | nil => intro x hx; cases hx
  | cons y ys ih =>
    intro x hx
    rcases List.mem_cons.mp hx with h | h
    · subst h; exact le_trans (le_max_right a x) (le_foldl_max _ ys)
    · exact ih (max a y) x h

lemma foldl_max_mem (a : ℚ) (l : List ℚ) : l.foldl max a = a ∨ l.foldl max a ∈ l := by
  induction l generalizing a with
  | nil => exact Or.inl rfl
  | cons x xs ih =>
    have hfold : (x :: xs).foldl max a = xs.foldl max (max a x) := rfl
    rcases ih (max a x) with h | h
    · rcases max_choice a x with hm | hm
      · exact Or.inl (by rw [hfold, h, hm])
      · exact Or.inr (by rw [hfold, h, hm]; exact List.mem_cons_self x xs)
    · exact Or.inr (by rw [hfold]; exact List.mem_cons_of_mem x h)

/-- Every score in a result list is bounded by `maxScore`. -/
lemma score_le_maxScore (rs : List AgentResult) : ∀ r ∈ rs, r.score ≤ maxScore rs := by
  intro r hr
  cases rs with
  | nil => cases hr
  | cons r₀ rest =>
    rcases List.mem_cons.mp hr with h | h
    · subst h; exact le_foldl_max _ _
    · exact mem_le_foldl_max _ _ r.score (List.mem_map_of_mem (·.score) h)

/-- A non-empty result list attains its `maxScore`. -/
lemma maxScore_mem (rs : List AgentResult) (h : rs ≠ []) :
    ∃ r ∈ rs, r.score = maxScore rs := by
  cases rs with
  | nil => exact absurd rfl h
  | cons r₀ rest =>
    rcases foldl_max_mem r₀.score (rest.map (·.score)) with hm | hm
    · exact ⟨r₀, List.mem_cons_self _ _, hm.symm⟩
    · rcases List.mem_map.mp hm with ⟨r, hr, hscore⟩
      exact ⟨r, List.mem_cons_of_mem _ hr, hscore⟩

/-- Lemma: `normalizeScores` never changes the underlying scores: every output
element is an input element with only `normalizedScore` possibly updated. -/
lemma normalizeScores_mem (rs : List AgentResult) :
    ∀ r ∈ normalizeScores rs, ∃ r₀ ∈ rs,
      r.score = r₀.score ∧ r.id = r₀.id := by
  intro r hr
  unfold normalizeScores at hr
  split at hr
  · cases hr
  · split at hr
    · exact ⟨r, hr, rfl, rfl⟩
    · rcases List.mem_map.mp hr with ⟨r₀, hr₀, hrfl⟩
      exact ⟨r₀, hr₀, by rw [← hrfl], by rw [← hrfl]⟩

/-- Claim C1: every Match sequence returned by the Vector Search Agent
contains only elements with `score >= threshold`, every index entry with
`score < threshold` is discarded (it is not in the filtered set and no
result carries its score), and the query endpoint's filtered match set
likewise contains only entries with `score >= SIMILARITY_THRESHOLD`. -/
theorem claim_C1_threshold_filtering (ms : List VMatch) (threshold : ℚ) :
    (∀ r ∈ VectorAgent.search ms threshold, threshold ≤ r.score) ∧
    (∀ m ∈ queryFilteredMatches ms, SIMILARITY_THRESHOLD ≤ m.score) ∧
    (∀ m ∈ ms, m.score < SIMILARITY_THRESHOLD → m ∉ queryFilteredMatches ms) ∧
    (∀ m ∈ ms, m.score < threshold →
      ∀ r ∈ VectorAgent.search ms threshold, r.score ≠ m.score) := by
  have hbase : ∀ r ∈ VectorAgent.search ms threshold, threshold ≤ r.score := by
    intro r hr
    rcases normalizeScores_mem _ r hr with ⟨r₀, hr₀, hscore, _⟩
    unfold filterFormat at hr₀
    rcases List.mem_map.mp hr₀ with ⟨m, hm, hmr⟩
    have := List.of_mem_filter hm
    rw [hscore, ← hmr]
    exact of_decide_eq_true this
  refine ⟨hbase, ?_, ?_, ?_⟩
  · intro m hm
    simp only [queryFilteredMatches, List.mem_filter, decide_eq_true_eq] at hm
    exact le_of_lt hm.2
  · intro m _ hlt hmem
    simp only [queryFilteredMatches, List.mem_filter, decide_eq_true_eq] at hmem
    exact absurd hmem.2 (not_lt.mpr (le_of_lt hlt))
  · intro m _ hlt r hr heq
    exact absurd (heq ▸ hbase r hr) (not_le.mpr hlt)

theorem claim_C1_witness :
    (7:ℚ)/10 ≤ (⟨"a", 9/10, [], "vector", "VectorAgent", some 1⟩ : AgentResult).score := by
  have hsearch : VectorAgent.search [⟨"a", 9/10, []⟩, ⟨"b", 3/10, []⟩] (7/10) =
      [⟨"a", 9/10, [], "vector", "VectorAgent", some 1⟩] := by
    norm_num [VectorAgent.search, filterFormat, normalizeScores, maxScore,
      List.filter]
  exact (claim_C1_threshold_filtering [⟨"a", 9/10, []⟩, ⟨"b", 3/10, []⟩] (7/10)).1 _
    (by rw [hsearch]; exact List.mem_cons_self _ _)

/-- A surviving result whose raw score is 0: the input on which the
claimed `normalizedScore = score` behaviour of the zero-max branch of
`BaseAgent.normalizeScores` is refuted. -/
def zeroScoreResult : AgentResult :=
  { id := "a", score := 0, metadata := [], source := "vector",
    agent := "VectorAgent", normalizedScore := none }

/-- Claim C2 counterexample: when the raw maximum score is 0,
`normalizeScores` returns the results unchanged, so the single surviving
result still has `normalizedScore = none` rather than
`normalizedScore = some 0 = some (raw score)` as the claim states. -/
theorem claim_C2_counterexample :
    maxScore [zeroScoreResult] = 0 ∧
    (normalizeScores [zeroScoreResult]).map (·.normalizedScore) ≠
      [some zeroScoreResult.score] := by
  constructor
  · rfl
  · simp [normalizeScores, maxScore, zeroScoreResult]

/-- Claim C2 (amended): an empty input yields an empty output; when the
raw maximum score is 0 the results pass through entirely unchanged (no
`normalizedScore` is set); otherwise every surviving result is retained
with its raw score and is given `normalizedScore = score / maxScore`, some
result attains `normalizedScore = 1`, and no result exceeds 1. -/
theorem claim_C2_score_normalization (rs : List AgentResult)
    (h0 : ∀ r ∈ rs, 0 ≤ r.score) :
    (normalizeScores ([] : List AgentResult) = []) ∧
    (maxScore rs = 0 → normalizeScores rs = rs) ∧
    (rs ≠ [] → maxScore rs ≠ 0 →
      normalizeScores rs = rs.map (fun r =>
        { r with normalizedScore := some (r.score / maxScore rs) }) ∧
      (∃ r' ∈ normalizeScores rs, r'.normalizedScore = some 1) ∧
      (∀ r' ∈ normalizeScores rs, ∀ q : ℚ,
        r'.normalizedScore = some q → q ≤ 1)) := by
  refine ⟨rfl, ?_, ?_⟩
  · intro hmz
    by_cases hne : rs = []
    · subst hne; rfl
    · unfold normalizeScores
      rw [if_neg hne, if_pos hmz]
  · intro hne hmz
    have hmax_pos : 0 < maxScore rs := by
      rcases maxScore_mem rs hne with ⟨r, hr, hscore⟩
      exact lt_of_le_of_ne (hscore ▸ h0 r hr) (Ne.symm hmz)
    have hmap : normalizeScores rs = rs.map (fun r =>
        { r with normalizedScore := some (r.score / maxScore rs) }) := by
      unfold normalizeScores
      rw [if_neg hne, if_neg hmz]
    refine ⟨hmap, ?_, ?_⟩
    · rcases maxScore_mem rs hne with ⟨r, hr, hscore⟩
      refine ⟨{ r with normalizedScore := some (r.score / maxScore rs) },
        hmap ▸ List.mem_map_of_mem _ hr, ?_⟩
      simp [hscore, div_self hmz]
    · intro r' hr' q hq
      rw [hmap] at hr'
      rcases List.mem_map.mp hr' with ⟨r₀, hr₀, hrfl⟩
      have : r'.normalizedScore = some (r₀.score / maxScore rs) := by
        rw [← hrfl]
      rw [this] at hq
      have hqeq : q = r₀.score / maxScore rs := (Option.some.inj hq).symm
      rw [hqeq]
      exact (div_le_one hmax_pos).mpr (score_le_maxScore rs r₀ hr₀)

/-- Concrete surviving result set used to instantiate C2: two results with
positive raw scores. -/
def sampleResults : List AgentResult :=
  [{ id := "a", score := 4/5, metadata := [], source := "vector",
     agent := "VectorAgent", normalizedScore := none },
   { id := "b", score := 2/5, metadata := [], source := "vector",
     agent := "VectorAgent", normalizedScore := none }]

/-- Witness for the amended C2 at a concrete two-element result set. -/
theorem claim_C2_witness :
    (normalizeScores ([] : List AgentResult) = []) ∧
    (maxScore sampleResults = 0 → normalizeScores sampleResults = sampleResults) ∧
    (sampleResults ≠ [] → maxScore sampleResults ≠ 0 →
      normalizeScores sampleResults = sampleResults.map (fun r =>
        { r with normalizedScore := some (r.score / maxScore sampleResults) }) ∧
      (∃ r' ∈ normalizeScores sampleResults, r'.normalizedScore = some 1) ∧
      (∀ r' ∈ normalizeScores sampleResults, ∀ q : ℚ,
        r'.normalizedScore = some q → q ≤ 1)) :=
  claim_C2_score_normalization sampleResults (by
    intro r hr
    fin_cases hr <;> norm_num [sampleResults])

/-- Message roles of the chat messages sent to the generation model. -/
inductive Role
  | system
  | user
deriving Repr, DecidableEq

/-- A role-tagged chat message, `{role, content}`. -/
structure ChatMessage where
  role : Role
  content : String
deriving Repr, DecidableEq

/-- The fixed instruction system prompt of the `GET /` endpoint. -/
def systemPrompt : String :=
  "When answering the question or responding, use the context provided, if it is provided and relevant."

/-- The `contextMessage` construction of `GET /` in `src/index.js`:
`notes.length ? ("Context:\n" + notes.map(n => "- " + n).join("\n")) : ""`. -/
def contextMessage (notes : List String) : String :=
  if notes.length ≠ 0 then
    "Context:\n" ++ String.intercalate ("\n") (notes.map (fun n => "- " ++ n))
  else ""

/-- The message sequence of `GET /`:
`[...(notes.length ? [system contextMessage] : []), system systemPrompt, user question]`. -/
def queryMessages (notes : List String) (question : String) : List ChatMessage :=
  (if notes.length ≠ 0 then [⟨Role.system, contextMessage notes⟩] else []) ++
    [⟨Role.system, systemPrompt⟩, ⟨Role.user, question⟩]

/-- Claim C3: with no notes the context is the empty string and no context
system message is sent (the message list is exactly instruction then user
question); with notes, the context block is `Context:` followed by one
`- <note>` bullet per note, sent as its own system message distinct from
the fixed instruction message, in the order
[context message, instruction message, user question]. -/
theorem claim_C3_context_assembly (notes : List String) (question : String) :
    (notes = [] → contextMessage notes = "" ∧
      queryMessages notes question =
        [⟨Role.system, systemPrompt⟩, ⟨Role.user, question⟩]) ∧
    (notes ≠ [] →
      contextMessage notes =
        "Context:\n" ++ String.intercalate ("\n") (notes.map (fun n => "- " ++ n)) ∧
      queryMessages notes question =
        [⟨Role.system, contextMessage notes⟩, ⟨Role.system, systemPrompt⟩,
          ⟨Role.user, question⟩]) ∧
    (∀ a b : String, contextMessage [a, b] = "Context:\n- " ++ a ++ "\n- " ++ b) := by
  refine ⟨?_, ?_, ?_⟩
  · intro h
    subst h
    exact ⟨rfl, rfl⟩
  · intro h
    have hlen : notes.length ≠ 0 := fun hc => h (List.length_eq_zero.mp hc)
    exact ⟨by rw [contextMessage, if_pos hlen],
      by rw [queryMessages, if_pos hlen]; rfl⟩
  · intro a b
    show (if _ then _ else _) = _
    rw [if_pos (by simp)]
    simp only [List.map_cons, List.map_nil, String.intercalate,
      String.intercalate.go]
    have h1 : ("Context:\n" ++ "- " : String) = "Context:\n- " := by decide
    have h2 : ("\n" ++ "- " : String) = "\n- " := by decide
    simp only [String.append_assoc]
    rw [← String.append_assoc ("\n") ("- "), h2,
      ← String.append_assoc ("Context:\n") ("- "), h1]

/-- Witness for C3 at a concrete pair of notes and a question. -/
theorem claim_C3_witness :
    contextMessage ["alpha", "beta"] = "Context:\n- alpha\n- beta" ∧
    queryMessages [] "q" = [⟨Role.system, systemPrompt⟩, ⟨Role.user, "q"⟩] := by
  constructor
  · have h := (claim_C3_context_assembly ["alpha", "beta"] "q").2.2 ("alpha") ("beta")
    rw [h]
    decide
  · exact ((claim_C3_context_assembly [] "q").1 rfl).2

/-- A row of the D1 `notes` table
(`id INTEGER PRIMARY KEY, text, metadata, created_at`); ids are modelled
as strings, the join key shared with the vector index. -/
structure DbNote where
  id : String
  text : String
  metadata : String
  created_at : String
deriving Repr, DecidableEq

/-- One entry of the `GET /search` results array:
`{id, score, text, metadata: {...match.metadata, created_at}}`. -/
structure SearchResult where
  id : String
  score : ℚ
  text : String
  metadata : List (String × String)
deriving Repr, DecidableEq

/-- One iteration of the `GET /search` per-match loop: skip the match if
`score < SIMILARITY_THRESHOLD`, otherwise issue one
`SELECT * FROM notes WHERE id = ?` round trip (counted in the second
component) and push a result only when a row was found. -/
def searchLoopStep (table : List DbNote) (acc : List SearchResult × Nat)
    (m : VMatch) : List SearchResult × Nat :=
  if m.score < SIMILARITY_THRESHOLD then acc
  else
    match table.filter (fun n => n.id = m.id) with
    | [] => (acc.1, acc.2 + 1)
    | n :: _ =>
      (acc.1 ++ [{ id := m.id, score := m.score, text := n.text,
                   metadata := m.metadata ++ [("created_at", n.created_at)] }],
       acc.2 + 1)

/-- The `GET /search` loop over all matches: built results plus the number
of record-store round trips it issued. -/
def searchLoop (table : List DbNote) (ms : List VMatch) :
    List SearchResult × Nat :=
  ms.foldl (searchLoopStep table) ([], 0)

/-- The sort `results.sort((a, b) => b.score - a.score)` of `GET /search`: a stable
sort by descending score. -/
def sortResultsDesc (rs : List SearchResult) : List SearchResult :=
  rs.mergeSort (fun a b => b.score ≤ a.score)

/-- The results array `GET /search` returns, after the descending sort. -/
def searchEndpointResults (table : List DbNote) (ms : List VMatch) :
    List SearchResult :=
  sortResultsDesc (searchLoop table ms).1

/-- The `GET /` record resolution: when there are matched ids, one
`SELECT * FROM notes WHERE id IN (...)` round trip returning every row
whose id is among `ids` in table (storage) order, keeping the texts; the
second component counts record-store round trips. -/
def resolveNotes (table : List DbNote) (ids : List String) :
    List String × Nat :=
  if ids.length > 0 then
    ((table.filter (fun n => ids.contains n.id)).map (·.text), 1)
  else ([], 0)

/-- Specification-side definition (`spec.md` §4.4): the note texts in the
order of the filtered, score-sorted matches, descending by score — the
order the spec claims the notes are supplied to context assembly in.
Compared against what `resolveNotes` actually produces. -/
def specScoreOrderedNoteTexts (table : List DbNote) (ms : List VMatch) :
    List String :=
  (queryFilteredMatches ms).filterMap
    (fun m => (table.find? (fun n => n.id = m.id)).map (·.text))

/-- Two stored notes whose table order is the reverse of their match
relevance order. -/
def c4Table : List DbNote :=
  [{ id := "1", text := "first note", metadata := "\x7b\x7d", created_at := "t1" },
   { id := "2", text := "second note", metadata := "\x7b\x7d", created_at := "t2" }]

/-- Two matches above the threshold, already ranked by the vector index
highest score first: note `2` is more relevant than note `1`. -/
def c4Matches : List VMatch :=
  [{ id := "2", score := 9/10, metadata := [] },
   { id := "1", score := 4/5, metadata := [] }]

/-- Claim C4 counterexample: the matches are sorted descending by score
(note `2` before note `1`), yet the `IN`-query of `GET /` returns the
notes in table order (`first note` before `second note`), not in the
filtered, score-sorted match order the claim states. -/
theorem claim_C4_counterexample :
    List.Pairwise (fun a b : VMatch => b.score ≤ a.score) c4Matches ∧
    (resolveNotes c4Table (matchingIds c4Matches)).1 =
      ["first note", "second note"] ∧
    specScoreOrderedNoteTexts c4Table c4Matches =
      ["second note", "first note"] ∧
    (resolveNotes c4Table (matchingIds c4Matches)).1 ≠
      specScoreOrderedNoteTexts c4Table c4Matches := by
  have hids : matchingIds c4Matches = ["2", "1"] := by
    norm_num [matchingIds, queryFilteredMatches, c4Matches,
      SIMILARITY_THRESHOLD, List.filter]
  have hfm : queryFilteredMatches c4Matches = c4Matches := by
    norm_num [queryFilteredMatches, c4Matches, SIMILARITY_THRESHOLD,
      List.filter]
  have hres : (resolveNotes c4Table (matchingIds c4Matches)).1 =
      ["first note", "second note"] := by
    rw [hids]
    norm_num [resolveNotes, c4Table, List.filter, List.contains]
  have hspec : specScoreOrderedNoteTexts c4Table c4Matches =
      ["second note", "first note"] := by
    unfold specScoreOrderedNoteTexts
    rw [hfm]
    decide
  exact ⟨by norm_num [c4Matches], hres, hspec, by rw [hres, hspec]; decide⟩

/-- Claim C4 (amended): the `GET /search` endpoint returns its results
sorted descending by score (highest first); the notes `GET /` supplies to
context assembly are the matching rows' texts in record-store (table)
order — a sublist of the table — which need not be the score-sorted match
order. -/
theorem claim_C4_descending_order (table : List DbNote) (ms : List VMatch)
    (ids : List String) :
    List.Pairwise (fun a b : SearchResult => b.score ≤ a.score)
      (searchEndpointResults table ms) ∧
    (resolveNotes table ids).1 =
      (table.filter (fun n => ids.contains n.id)).map (·.text) ∧
    ∃ sub : List DbNote, sub.Sublist table ∧
      (resolveNotes table ids).1 = sub.map (·.text) := by
  refine ⟨?_, ?_, ?_⟩
  · have h : (List.mergeSort (searchLoop table ms).1
        (fun a b : SearchResult => decide (b.score ≤ a.score))).Pairwise
        (fun a b : SearchResult => decide (b.score ≤ a.score) = true) := by
      apply List.sorted_mergeSort
      · intro a b c hab hbc
        simp only [decide_eq_true_eq] at *
        exact le_trans hbc hab
      · intro a b
        simp only [Bool.or_eq_true, decide_eq_true_eq]
        exact le_total b.score a.score
    unfold searchEndpointResults sortResultsDesc
    exact h.imp (fun hab => of_decide_eq_true hab)
  · unfold resolveNotes
    split
    · rfl
    · (next h =>
        have hids : ids = [] := by
          cases ids with
          | nil => rfl
          | cons a as => exact absurd (Nat.succ_pos as.length) h
        subst hids
        simp [List.contains])
  · exact ⟨table.filter (fun n => ids.contains n.id),
      List.filter_sublist table, by
        unfold resolveNotes
        split
        · rfl
        · (next h =>
            have hids : ids = [] := by
              cases ids with
              | nil => rfl
              | cons a as => exact absurd (Nat.succ_pos as.length) h
            subst hids
            simp [List.contains])⟩

/-- The round-trip count of one `searchLoopStep` iteration: 1 when the
match passes the threshold, 0 otherwise. -/
lemma searchLoopStep_trips (table : List DbNote) (acc : List SearchResult × Nat)
    (m : VMatch) :
    (searchLoopStep table acc m).2 =
      if m.score < SIMILARITY_THRESHOLD then acc.2 else acc.2 + 1 := by
  unfold searchLoopStep
  by_cases h : m.score < SIMILARITY_THRESHOLD
  · rw [if_pos h, if_pos h]
  · rw [if_neg h, if_neg h]
    cases table.filter (fun n => n.id = m.id) with
    | nil => rfl
    | cons n rest => rfl

lemma searchLoop_trips_go (table : List DbNote) (ms : List VMatch) :
    ∀ acc : List SearchResult × Nat,
      (ms.foldl (searchLoopStep table) acc).2 =
        acc.2 + (ms.filter (fun m => ¬ m.score < SIMILARITY_THRESHOLD)).length := by
  induction ms with
  | nil => intro acc; simp
  | cons m rest ih =>
    intro acc
    rw [List.foldl_cons, ih]
    by_cases h : m.score < SIMILARITY_THRESHOLD
    · rw [searchLoopStep_trips, if_pos h]
      simp [List.filter_cons, h]
    · rw [searchLoopStep_trips, if_neg h]
      simp only [List.filter_cons, h, decide_not, decide_eq_true_eq]
      simp [h]
      omega

/-- Claim C8 counterexample: with two matches above the threshold, the
`GET /search` per-match loop issues two record-store round trips, not one
query parameterized over the whole id set. -/
theorem claim_C8_counterexample :
    (searchLoop c4Table c4Matches).2 = 2 ∧ (searchLoop c4Table c4Matches).2 ≠ 1 := by
  have h : (searchLoop c4Table c4Matches).2 = 2 := by
    rw [searchLoop, searchLoop_trips_go]
    norm_num [c4Matches, SIMILARITY_THRESHOLD, List.filter]
  exact ⟨h, by rw [h]; decide⟩

/-- Claim C8 (amended): the `GET /` query path resolves all matched ids in
a single `IN`-query round trip (0 round trips when no id matched, 1
otherwise); the `GET /search` path instead issues one single-id round trip
per threshold-passing match. -/
theorem claim_C8_round_trips (table : List DbNote) (ids : List String)
    (ms : List VMatch) :
    (resolveNotes table ids).2 = (if ids = [] then 0 else 1) ∧
    (resolveNotes table ids).2 ≤ 1 ∧
    (searchLoop table ms).2 =
      (ms.filter (fun m => ¬ m.score < SIMILARITY_THRESHOLD)).length := by
  have h1 : (resolveNotes table ids).2 = (if ids = [] then 0 else 1) := by
    cases ids with
    | nil => rfl
    | cons a as => simp [resolveNotes]
  refine ⟨h1, ?_, ?_⟩
  · rw [h1]
    split <;> omega
  · rw [searchLoop, searchLoop_trips_go]
    simp

/-- The model token of the `GET /` request:
`c.req.query("model") || "llama"` — absent or empty falls back to
`"llama"`. -/
def selectedModelParam (q : Option String) : String :=
  match q with
  | none => "llama"
  | some s => if s = "" then "llama" else s

/-- The model selection of `GET /`:
`selectedModel === "llama-70b" ? ADVANCED_MODEL : DEFAULT_MODEL`. -/
def modelName (selectedModel : String) : String :=
  if selectedModel = "llama-70b" then ADVANCED_MODEL else DEFAULT_MODEL

/-- The headers `createResponse` attaches to the `GET /` response:
`Content-Type` and `X-Timestamp` from the base, then the caller-supplied
`x-model-used` entry. -/
def queryResponseHeaders (model ts : String) : List (String × String) :=
  [("Content-Type", "application/json"), ("X-Timestamp", ts),
   ("x-model-used", model)]

/-- Claim C9: model selection is total and never fails — `"llama-70b"`
maps to the advanced model and every other token (absent, `"llama"`,
unrecognized ones such as `"bogus-variant"`) maps to the default fast
model — and the resolved model identifier is surfaced in the
`x-model-used` response header. -/
theorem claim_C9_model_selection :
    (∀ s : String, modelName s = ADVANCED_MODEL ∨ modelName s = DEFAULT_MODEL) ∧
    modelName (selectedModelParam (some ("llama-70b"))) = ADVANCED_MODEL ∧
    (∀ s : String, s ≠ "llama-70b" → modelName s = DEFAULT_MODEL) ∧
    modelName (selectedModelParam (some ("bogus-variant"))) =
      modelName (selectedModelParam (some ("llama"))) ∧
    modelName (selectedModelParam none) = DEFAULT_MODEL ∧
    (∀ model ts : String,
      (queryResponseHeaders model ts).lookup ("x-model-used") = some model) := by
  refine ⟨?_, by decide, ?_, by decide, by decide, ?_⟩
  · intro s
    unfold modelName
    split
    · exact Or.inl rfl
    · exact Or.inr rfl
  · intro s hs
    unfold modelName
    rw [if_neg hs]
  · intro model ts
    simp [queryResponseHeaders, List.lookup]

/-- Witness for C9: the unrecognized token `"bogus-variant"` resolves to
the default model. -/
theorem claim_C9_witness :
    modelName ("bogus-variant") = DEFAULT_MODEL :=
  claim_C9_model_selection.2.2.1 ("bogus-variant") (by decide)

/-- The `context` array of the `GET /` response: the resolved note texts. -/
def queryContext (table : List DbNote) (ms : List VMatch) : List String :=
  (resolveNotes table (matchingIds ms)).1

/-- The `metadata.matchCount` of the `GET /` response:
`matchingIds.length`, the number of matches that passed the threshold
filter. -/
def queryMatchCount (ms : List VMatch) : Nat :=
  (matchingIds ms).length

/-- Counting the matching rows of the `IN`-query by the matched ids: with
duplicate-free table ids and duplicate-free ids, the number of rows whose
id is in `ids` equals the number of ids that have a row. -/
lemma filter_table_length (table : List DbNote) (ids : List String)
    (htable : (table.map (·.id)).Nodup) (hids : ids.Nodup) :
    (table.filter (fun n => ids.contains n.id)).length =
      (ids.filter (fun i => table.any (fun n => n.id = i))).length := by
  have h1 : ((table.filter (fun n => ids.contains n.id)).map (·.id)).Nodup :=
    htable.sublist ((List.filter_sublist table).map (·.id))
  have h2 : (ids.filter (fun i => table.any (fun n => n.id = i))).Nodup :=
    hids.sublist (List.filter_sublist ids)
  have hmem : ∀ x, x ∈ (table.filter (fun n => ids.contains n.id)).map (·.id) ↔
      x ∈ ids.filter (fun i => table.any (fun n => n.id = i)) := by
    intro x
    simp only [List.mem_map, List.mem_filter, List.any_eq_true,
      decide_eq_true_eq, List.contains, List.elem_iff]
    constructor
    · rintro ⟨n, ⟨hn, hnid⟩, rfl⟩
      exact ⟨hnid, n, hn, rfl⟩
    · rintro ⟨hx, n, hn, hnid⟩
      exact ⟨n, ⟨hn, hnid ▸ hx⟩, hnid⟩
  have hperm := ((List.perm_ext_iff_of_nodup h1 h2).mpr hmem).length_eq
  simpa using hperm

/-- Claim C10: `matchCount` counts the threshold-passing matches,
`context` holds exactly the texts of those matched ids that have a Note
row, so `|context| ≤ matchCount`, with equality exactly when every
matched id has a corresponding Note. -/
theorem claim_C10_matchcount_vs_context (table : List DbNote)
    (ms : List VMatch) (htable : (table.map (·.id)).Nodup)
    (hms : (ms.map (·.id)).Nodup) :
    queryMatchCount ms = (queryFilteredMatches ms).length ∧
    (queryContext table ms).length =
      ((matchingIds ms).filter (fun i => table.any (fun n => n.id = i))).length ∧
    (queryContext table ms).length ≤ queryMatchCount ms ∧
    ((queryContext table ms).length = queryMatchCount ms ↔
      ∀ i ∈ matchingIds ms, ∃ n ∈ table, n.id = i) := by
  have hids_nodup : (matchingIds ms).Nodup := by
    have hsub : (matchingIds ms).Sublist (ms.map (·.id)) := by
      unfold matchingIds queryFilteredMatches
      exact (List.filter_sublist ms).map (·.id)
    exact hms.sublist hsub
  have hlen : (queryContext table ms).length =
      ((matchingIds ms).filter (fun i => table.any (fun n => n.id = i))).length := by
    unfold queryContext resolveNotes
    by_cases h : matchingIds ms = []
    · rw [h]
      simp
    · rw [if_pos (List.length_pos.mpr h)]
      simp only [List.length_map]
      exact filter_table_length table (matchingIds ms) htable hids_nodup
  refine ⟨by simp [queryMatchCount, matchingIds], hlen, ?_, ?_⟩
  · rw [hlen]
    exact List.length_filter_le _ _
  · rw [hlen]
    unfold queryMatchCount
    rw [List.filter_length_eq_length]
    constructor
    · intro h i hi
      have := h i hi
      simpa [List.any_eq_true] using this
    · intro h i hi
      have := h i hi
      simpa [List.any_eq_true] using this

/-- A one-row table: only note `1` exists, although both `1` and `2` will
be matched. -/
def c10Table : List DbNote :=
  [{ id := "1", text := "first note", metadata := "\x7b\x7d", created_at := "t1" }]

/-- Witness for C10: one matched id has a row, the other does not, so
`matchCount` exceeds the `context` length. -/
theorem claim_C10_witness :
    queryMatchCount c4Matches = (queryFilteredMatches c4Matches).length ∧
    (queryContext c10Table c4Matches).length =
      ((matchingIds c4Matches).filter
        (fun i => c10Table.any (fun n => n.id = i))).length ∧
    (queryContext c10Table c4Matches).length ≤ queryMatchCount c4Matches ∧
    ((queryContext c10Table c4Matches).length = queryMatchCount c4Matches ↔
      ∀ i ∈ matchingIds c4Matches, ∃ n ∈ c10Table, n.id = i) :=
  claim_C10_matchcount_vs_context c10Table c4Matches
    (by decide) (by decide)

/-- A JavaScript value, as far as the `text` field validation is
concerned. -/
inductive JsVal
  | undef
  | null
  | str (s : String)
  | num (n : Int)
  | boolean (b : Bool)
deriving Repr, DecidableEq

/-- JavaScript truthiness (`!text` is the negation of this). -/
def JsVal.truthy : JsVal → Bool
  | .undef => false
  | .null => false
  | .str s => s ≠ ""
  | .num n => n ≠ 0
  | .boolean b => b

/-- The check `typeof text === "string"`. -/
def JsVal.isString : JsVal → Bool
  | .str _ => true
  | _ => false

/-- The string content of a `JsVal` (only used on strings). -/
def JsVal.strVal : JsVal → String
  | .str s => s
  | _ => ""

/-- An entry of the Vectorize index as upserted by step 3 of
`RAGWorkflow.run`: id of the owning note, embedding values, the first
1000 characters of the text, a timestamp, and the caller metadata. -/
structure VectorEntry where
  id : String
  values : List ℚ
  metaText : String
  timestamp : String
  metaExtra : String
deriving Repr, DecidableEq

/-- The durable state surrounding one `RAGWorkflow` instance: the two
stores, the id the next inserted row receives, and the per-step
checkpoints.  Modelled from the spec: the durable-execution substrate
(`step.do`, an external collaborator not in `src/`) persists each step's
result before the next step begins and does not re-execute a step that
already completed when the pipeline is retried. -/
structure WorkflowState where
  notes : List DbNote
  vectors : List VectorEntry
  nextId : Nat
  ckRecord : Option DbNote
  ckEmbedding : Option (List ℚ)
  ckVector : Bool
deriving Repr, DecidableEq

/-- The value `RAGWorkflow.run` returns on success:
`{success, recordId, text, metadata, timestamp}`. -/
structure WorkflowResult where
  recordId : String
  text : String
  metadata : String
  timestamp : String
deriving Repr, DecidableEq

/-- Step 3 of `RAGWorkflow.run` (insert vector): skipped when its
checkpoint is set; otherwise upserts
`{id: record.id, values, metadata: {text: text.substring(0,1000),
timestamp, ...metadata}}` into the index, or fails when the upsert
collaborator fails (`vecOk = false`). -/
def runStep3 (record : DbNote) (textStr meta : String) (v : List ℚ)
    (vecOk : Bool) (ts : String) (s : WorkflowState) (trace : List String) :
    Except String WorkflowResult × WorkflowState × List String :=
  if s.ckVector then
    (.ok ⟨record.id, textStr, meta, ts⟩, s, trace)
  else if vecOk then
    (.ok ⟨record.id, textStr, meta, ts⟩,
     { s with
        vectors := s.vectors.filter (fun e => e.id ≠ record.id) ++
          [⟨record.id, v, textStr.take 1000, ts, meta⟩],
        ckVector := true },
     trace ++ ["insert vector"])
  else (.error ("Vector insertion failed"), s, trace ++ ["insert vector"])

/-- Steps 2 (generate embedding) and 3 of `RAGWorkflow.run`, entered with
the step-1 record in hand.  `embedOutcome` is the embedding
collaborator's behaviour on this attempt (`none`: the AI call fails or
returns no data). A checkpointed embedding is reused without re-running
the step. -/
def runSteps23 (record : DbNote) (textStr meta : String)
    (embedOutcome : Option (List ℚ)) (vecOk : Bool) (ts : String)
    (s : WorkflowState) (trace : List String) :
    Except String WorkflowResult × WorkflowState × List String :=
  match s.ckEmbedding with
  | some v => runStep3 record textStr meta v vecOk ts s trace
  | none =>
    match embedOutcome with
    | none =>
      (.error ("Embedding generation failed"), s, trace ++ ["generate embedding"])
    | some v =>
      runStep3 record textStr meta v vecOk ts
        { s with ckEmbedding := some v } (trace ++ ["generate embedding"])

/-- One attempt of `RAGWorkflow.run` (`src/vectorize.js`): validate the
payload text, then step 1 (create database record — skipped and its
checkpointed record reused when already completed), step 2, step 3.  The
third component lists the names of the steps whose bodies executed this
attempt, in execution order. -/
def runWorkflow (text : JsVal) (meta : String)
    (embedOutcome : Option (List ℚ)) (vecOk : Bool) (ts : String)
    (s : WorkflowState) :
    Except String WorkflowResult × WorkflowState × List String :=
  if ¬ (text.truthy ∧ text.isString) then
    (.error ("Invalid text provided to workflow"), s, [])
  else
    match s.ckRecord with
    | some r => runSteps23 r text.strVal meta embedOutcome vecOk ts s []
    | none =>
      runSteps23 ⟨toString s.nextId, text.strVal, meta, ts⟩ text.strVal meta
        embedOutcome vecOk ts
        { s with
            notes := s.notes ++ [⟨toString s.nextId, text.strVal, meta, ts⟩],
            nextId := s.nextId + 1,
            ckRecord := some ⟨toString s.nextId, text.strVal, meta, ts⟩ }
        ["create database record"]

/-- Claim C5: if step 2 (embed) or step 3 (index) fails after step 1
(persist) succeeded, the Note created by step 1 remains persisted, and a
retry of the pipeline reuses that Note instead of inserting a second one,
resuming from the failed step — after an embed failure the retry re-runs
only steps 2 and 3; after an index failure the retry re-runs only step 3;
on a clean run the steps execute in the order persist, embed, index. -/
theorem claim_C5_ingestion_resumption (text : JsVal) (meta : String)
    (v : List ℚ) (ts1 ts2 : String) (notes0 : List DbNote)
    (vecs0 : List VectorEntry) (nid : Nat)
    (hvalid : text.truthy ∧ text.isString) :
    -- first attempt: embedding fails after the record was persisted
    (runWorkflow text meta none true ts1 ⟨notes0, vecs0, nid, none, none, false⟩ =
      (.error ("Embedding generation failed"),
       ⟨notes0 ++ [⟨toString nid, text.strVal, meta, ts1⟩], vecs0, nid + 1,
        some ⟨toString nid, text.strVal, meta, ts1⟩, none, false⟩,
       ["create database record", "generate embedding"])) ∧
    -- retry on the checkpointed state: no second insert, resumes at step 2
    ((runWorkflow text meta (some v) true ts2
        ⟨notes0 ++ [⟨toString nid, text.strVal, meta, ts1⟩], vecs0, nid + 1,
         some ⟨toString nid, text.strVal, meta, ts1⟩, none, false⟩).2.1.notes =
      notes0 ++ [⟨toString nid, text.strVal, meta, ts1⟩]) ∧
    ((runWorkflow text meta (some v) true ts2
        ⟨notes0 ++ [⟨toString nid, text.strVal, meta, ts1⟩], vecs0, nid + 1,
         some ⟨toString nid, text.strVal, meta, ts1⟩, none, false⟩).2.2 =
      ["generate embedding", "insert vector"]) ∧
    ((runWorkflow text meta (some v) true ts2
        ⟨notes0 ++ [⟨toString nid, text.strVal, meta, ts1⟩], vecs0, nid + 1,
         some ⟨toString nid, text.strVal, meta, ts1⟩, none, false⟩).1 =
      .ok ⟨toString nid, text.strVal, meta, ts2⟩) ∧
    -- first attempt: the index upsert fails after persist and embed
    -- succeeded; the record and the embedding are checkpointed, the Note
    -- stays persisted
    (runWorkflow text meta (some v) false ts1
        ⟨notes0, vecs0, nid, none, none, false⟩ =
      (.error ("Vector insertion failed"),
       ⟨notes0 ++ [⟨toString nid, text.strVal, meta, ts1⟩], vecs0, nid + 1,
        some ⟨toString nid, text.strVal, meta, ts1⟩, some v, false⟩,
       ["create database record", "generate embedding", "insert vector"])) ∧
    -- retry on that checkpointed state: no second insert
    ((runWorkflow text meta (some v) true ts2
        ⟨notes0 ++ [⟨toString nid, text.strVal, meta, ts1⟩], vecs0, nid + 1,
         some ⟨toString nid, text.strVal, meta, ts1⟩, some v, false⟩).2.1.notes =
      notes0 ++ [⟨toString nid, text.strVal, meta, ts1⟩]) ∧
    -- the retry resumes at step 3 alone: persist and embed are not re-run
    ((runWorkflow text meta (some v) true ts2
        ⟨notes0 ++ [⟨toString nid, text.strVal, meta, ts1⟩], vecs0, nid + 1,
         some ⟨toString nid, text.strVal, meta, ts1⟩, some v, false⟩).2.2 =
      ["insert vector"]) ∧
    ((runWorkflow text meta (some v) true ts2
        ⟨notes0 ++ [⟨toString nid, text.strVal, meta, ts1⟩], vecs0, nid + 1,
         some ⟨toString nid, text.strVal, meta, ts1⟩, some v, false⟩).1 =
      .ok ⟨toString nid, text.strVal, meta, ts2⟩) ∧
    -- a clean run executes persist, embed, index in order
    ((runWorkflow text meta (some v) true ts1
        ⟨notes0, vecs0, nid, none, none, false⟩).2.2 =
      ["create database record", "generate embedding", "insert vector"]) := by
  have hcond := not_not_intro hvalid
  refine ⟨?_, ?_, ?_, ?_, ?_, ?_, ?_, ?_, ?_⟩ <;>
    simp only [runWorkflow, runSteps23, runStep3, if_neg hcond] <;> rfl

/-- Witness for C5 at a concrete valid payload and fresh state. -/
theorem claim_C5_witness :
    (runWorkflow (.str ("hello")) "\x7b\x7d" none true ("t1") ⟨[], [], 1, none, none, false⟩ =
      (.error ("Embedding generation failed"),
       ⟨[⟨"1", "hello", "\x7b\x7d", "t1"⟩], [], 2,
        some ⟨"1", "hello", "\x7b\x7d", "t1"⟩, none, false⟩,
       ["create database record", "generate embedding"])) ∧
    ((runWorkflow (.str ("hello")) "\x7b\x7d" (some [1]) true ("t2")
        ⟨[⟨"1", "hello", "\x7b\x7d", "t1"⟩], [], 2,
         some ⟨"1", "hello", "\x7b\x7d", "t1"⟩, none, false⟩).2.1.notes =
      [⟨"1", "hello", "\x7b\x7d", "t1"⟩]) ∧
    ((runWorkflow (.str ("hello")) "\x7b\x7d" (some [1]) true ("t2")
        ⟨[⟨"1", "hello", "\x7b\x7d", "t1"⟩], [], 2,
         some ⟨"1", "hello", "\x7b\x7d", "t1"⟩, none, false⟩).2.2 =
      ["generate embedding", "insert vector"]) ∧
    ((runWorkflow (.str ("hello")) "\x7b\x7d" (some [1]) true ("t2")
        ⟨[⟨"1", "hello", "\x7b\x7d", "t1"⟩], [], 2,
         some ⟨"1", "hello", "\x7b\x7d", "t1"⟩, none, false⟩).1 =
      .ok ⟨"1", "hello", "\x7b\x7d", "t2"⟩) ∧
    (runWorkflow (.str ("hello")) "\x7b\x7d" (some [1]) false ("t1")
        ⟨[], [], 1, none, none, false⟩ =
      (.error ("Vector insertion failed"),
       ⟨[⟨"1", "hello", "\x7b\x7d", "t1"⟩], [], 2,
        some ⟨"1", "hello", "\x7b\x7d", "t1"⟩, some [1], false⟩,
       ["create database record", "generate embedding", "insert vector"])) ∧
    ((runWorkflow (.str ("hello")) "\x7b\x7d" (some [1]) true ("t2")
        ⟨[⟨"1", "hello", "\x7b\x7d", "t1"⟩], [], 2,
         some ⟨"1", "hello", "\x7b\x7d", "t1"⟩, some [1], false⟩).2.1.notes =
      [⟨"1", "hello", "\x7b\x7d", "t1"⟩]) ∧
    ((runWorkflow (.str ("hello")) "\x7b\x7d" (some [1]) true ("t2")
        ⟨[⟨"1", "hello", "\x7b\x7d", "t1"⟩], [], 2,
         some ⟨"1", "hello", "\x7b\x7d", "t1"⟩, some [1], false⟩).2.2 =
      ["insert vector"]) ∧
    ((runWorkflow (.str ("hello")) "\x7b\x7d" (some [1]) true ("t2")
        ⟨[⟨"1", "hello", "\x7b\x7d", "t1"⟩], [], 2,
         some ⟨"1", "hello", "\x7b\x7d", "t1"⟩, some [1], false⟩).1 =
      .ok ⟨"1", "hello", "\x7b\x7d", "t2"⟩) ∧
    ((runWorkflow (.str ("hello")) "\x7b\x7d" (some [1]) true ("t1")
        ⟨[], [], 1, none, none, false⟩).2.2 =
      ["create database record", "generate embedding", "insert vector"]) := by
  have h := claim_C5_ingestion_resumption (.str ("hello")) "\x7b\x7d" [1] ("t1") ("t2")
    [] [] 1 (by decide)
  simpa using h

/-- The observable outcome of a `DELETE /notes/:id` request: HTTP status,
whether the response carries a body, and the two stores afterwards. -/
structure DeleteOutcome where
  status : Nat
  hasBody : Bool
  notes : List DbNote
  vectors : List VectorEntry
deriving Repr, DecidableEq

/-- The `DELETE /notes/:id` handler of `src/index.js`: first
`DELETE FROM notes WHERE id = ?` against D1, then
`VECTORIZE.deleteByIds([id])`; a throw in either leg is caught by
`handleError`, which responds 500 with a JSON error body and rolls
nothing back; when both legs succeed the handler responds 204 with no
body.  `dbOk` and `vecOk` are the two collaborators' outcomes. -/
def deleteNote (id : String) (dbOk vecOk : Bool)
    (notes : List DbNote) (vectors : List VectorEntry) : DeleteOutcome :=
  if ¬ dbOk then ⟨500, true, notes, vectors⟩
  else if ¬ vecOk then
    ⟨500, true, notes.filter (fun n => n.id ≠ id), vectors⟩
  else
    ⟨204, false, notes.filter (fun n => n.id ≠ id),
     vectors.filter (fun e => e.id ≠ id)⟩

/-- Claim C6: the two deletion legs are independent with no rollback — if
both succeed the endpoint returns 204 with no body and the note and its
vector are gone; if the record-store delete succeeds and the vector-index
delete fails the operation reports failure (500) while the Note is
already gone from the record store (a subsequent resolve finds nothing)
and the vector index is untouched; if the record-store delete fails the
operation reports failure and both stores are unchanged. -/
theorem claim_C6_deletion_independence (id : String)
    (notes : List DbNote) (vectors : List VectorEntry) :
    ((deleteNote id true true notes vectors).status = 204 ∧
     (deleteNote id true true notes vectors).hasBody = false ∧
     (∀ n ∈ (deleteNote id true true notes vectors).notes, n.id ≠ id) ∧
     (∀ e ∈ (deleteNote id true true notes vectors).vectors, e.id ≠ id)) ∧
    ((deleteNote id true false notes vectors).status = 500 ∧
     (deleteNote id true false notes vectors).hasBody = true ∧
     (deleteNote id true false notes vectors).notes.filter
       (fun n => n.id = id) = [] ∧
     (deleteNote id true false notes vectors).vectors = vectors) ∧
    (∀ vecOk : Bool,
      (deleteNote id false vecOk notes vectors).status = 500 ∧
      (deleteNote id false vecOk notes vectors).notes = notes ∧
      (deleteNote id false vecOk notes vectors).vectors = vectors) := by
  refine ⟨⟨rfl, rfl, ?_, ?_⟩, ⟨rfl, rfl, ?_, rfl⟩, fun vecOk => ⟨rfl, rfl, rfl⟩⟩
  · intro n hn
    simpa using (List.mem_filter.mp hn).2
  · intro e he
    simpa using (List.mem_filter.mp he).2
  · rw [show (deleteNote id true false notes vectors).notes =
        notes.filter (fun n => n.id ≠ id) from rfl]
    rw [List.filter_filter]
    simp

/-- Witness for C6: deleting note `1` from the one-row table with the
vector leg failing reports 500 while the row is gone. -/
theorem claim_C6_witness :
    (deleteNote ("1") true false c10Table []).status = 500 ∧
    (deleteNote ("1") true false c10Table []).notes.filter
      (fun n => n.id = "1") = [] ∧
    (deleteNote ("1") true false c10Table []).vectors = [] :=
  ⟨(claim_C6_deletion_independence ("1") c10Table []).2.1.1,
   (claim_C6_deletion_independence ("1") c10Table []).2.1.2.2.1,
   (claim_C6_deletion_independence ("1") c10Table []).2.1.2.2.2⟩

/-- The validation of `POST /notes`
(`!text || typeof text !== "string" || text.trim().length === 0`):
invalid input responds 400 and creates nothing; valid input responds 201
and hands the trimmed text to the workflow.  Returns the HTTP status and
the created workflow's payload text, if one was created. -/
def postNotes (text : JsVal) : Nat × Option String :=
  if ¬ text.truthy ∨ ¬ text.isString ∨ text.strVal.trim.length = 0 then
    (400, none)
  else (201, some text.strVal.trim)

/-- Claim C7: for every ingestion request whose text is missing, not a
string, or the empty string, `POST /notes` responds 400 and creates no
workflow, and `RAGWorkflow.run` fails its validation immediately —
surfacing the error with no step executed and no Note record created. -/
theorem claim_C7_validation (text : JsVal) (meta : String)
    (embedOutcome : Option (List ℚ)) (vecOk : Bool) (ts : String)
    (s : WorkflowState)
    (hinvalid : text = .undef ∨ text.isString = false ∨ text = .str ("")) :
    postNotes text = (400, none) ∧
    runWorkflow text meta embedOutcome vecOk ts s =
      (.error ("Invalid text provided to workflow"), s, []) := by
  have hcond : ¬ (text.truthy ∧ text.isString) := by
    rcases hinvalid with h | h | h
    · subst h; decide
    · intro hc; rw [h] at hc; exact Bool.false_ne_true hc.2
    · subst h; decide
  constructor
  · unfold postNotes
    rw [if_pos]
    rcases not_and_or.mp hcond with h | h
    · exact Or.inl h
    · exact Or.inr (Or.inl h)
  · unfold runWorkflow
    rw [if_pos hcond]

/-- Witness for C7: the empty string is rejected by both the endpoint and
the workflow, leaving the state untouched. -/
theorem claim_C7_witness :
    postNotes (.str ("")) = (400, none) ∧
    runWorkflow (.str ("")) "\x7b\x7d" (some [1]) true ("t")
        ⟨[], [], 1, none, none, false⟩ =
      (.error ("Invalid text provided to workflow"),
       ⟨[], [], 1, none, none, false⟩, []) :=
  claim_C7_validation (.str ("")) "\x7b\x7d" (some [1]) true ("t")
    ⟨[], [], 1, none, none, false⟩ (Or.inr (Or.inr rfl))

end RagApi
